import Mathlib

/-!
Verification development for the go-nk-sdl integration shim (package nksdl).
The definitions below are shallow embeddings of the Go source files:
`events.go` (key bindings and event handling) and the Driver lifecycle file
(`Init`, `PreRender`, `PostRender`, `Destroy`, `SetUIScale`).  External
library calls (SDL renderer operations, Nuklear context operations) are
modelled by explicit state passing plus failure oracles, since the Go code
only observes their success/failure and the state they carry.
-/

namespace NkSdl

/-! ## SDL keycodes and modifier masks (values from SDL2) -/

abbrev Keycode := Nat
abbrev Keymod := Nat

def K_UNKNOWN : Keycode := 0
def K_BACKSPACE : Keycode := 8
def K_TAB : Keycode := 9
def K_RETURN : Keycode := 13
def K_a : Keycode := 97
def K_c : Keycode := 99
def K_e : Keycode := 101
def K_v : Keycode := 118
def K_x : Keycode := 120
def K_z : Keycode := 122
def K_HOME : Keycode := 0x4000004A
def K_PAGEUP : Keycode := 0x4000004B
def K_END : Keycode := 0x4000004D
def K_PAGEDOWN : Keycode := 0x4000004E
def K_RIGHT : Keycode := 0x4000004F
def K_LEFT : Keycode := 0x40000050
def K_DOWN : Keycode := 0x40000051
def K_UP : Keycode := 0x40000052
def K_LSHIFT : Keycode := 0x400000E1
def K_RSHIFT : Keycode := 0x400000E5

def KMOD_NONE : Keymod := 0
def KMOD_LSHIFT : Keymod := 0x0001
def KMOD_RSHIFT : Keymod := 0x0002
def KMOD_LCTRL : Keymod := 0x0040
def KMOD_RCTRL : Keymod := 0x0080
def KMOD_LALT : Keymod := 0x0100
def KMOD_RALT : Keymod := 0x0200
def KMOD_LGUI : Keymod := 0x0400
def KMOD_RGUI : Keymod := 0x0800
def KMOD_SHIFT : Keymod := KMOD_LSHIFT ||| KMOD_RSHIFT
def KMOD_CTRL : Keymod := KMOD_LCTRL ||| KMOD_RCTRL
def KMOD_ALT : Keymod := KMOD_LALT ||| KMOD_RALT
def KMOD_GUI : Keymod := KMOD_LGUI ||| KMOD_RGUI

/-- Go's `a &^ b` (AND NOT) on the 16-bit `sdl.Keymod` type. -/
def andNot (a b : Keymod) : Keymod := a &&& (0xFFFF ^^^ b)

/-- `KeyInput` (events.go): reduced form of `sdl.Keysym`, the lookup key of the
binding table. -/
structure KeyInput where
  code : Keycode
  mod : Keymod
deriving DecidableEq, Repr

/-- The Nuklear abstract keys used by this repository (`nk.Key`).
`keyNone` is `nk.KeyNone`, the zero value of the Go type. -/
inductive NkKey
  | keyNone
  | shift
  | enter
  | tab
  | backspace
  | copy
  | cut
  | paste
  | up
  | down
  | left
  | right
  | textLineStart
  | textLineEnd
  | textStart
  | textEnd
  | textUndo
  | textRedo
  | scrollStart
  | scrollEnd
  | scrollDown
  | scrollUp
deriving DecidableEq, Repr

/-- `KeyAction` (events.go): up to two abstract keys to emit for one physical
key; absence is the sentinel `keyNone`. -/
structure KeyAction where
  key1 : NkKey
  key2 : NkKey
deriving DecidableEq, Repr

/-- The zero value of the Go `KeyAction` struct (what a map lookup of a missing
key returns). -/
def KeyAction.zero : KeyAction := ⟨NkKey.keyNone, NkKey.keyNone⟩

/-- A Go `map[KeyInput]KeyAction` is modelled as an association list; the list
order stands for the (unspecified) map iteration order. -/
abbrev BindTable := List (KeyInput × KeyAction)

def lookupTable (t : BindTable) (k : KeyInput) : Option KeyAction := t.lookup k

/-- Insert-or-replace, the effect of `dst[k] = v` on a Go map. -/
def setTable (t : BindTable) (k : KeyInput) (v : KeyAction) : BindTable :=
  match t with
  | [] => [(k, v)]
  | (k', v') :: rest => if k' = k then (k, v) :: rest else (k', v') :: setTable rest k v

/-- `keyBinding` (events.go line 194). -/
structure KeyBinding where
  input : KeyInput
  action : KeyAction
deriving DecidableEq, Repr

/-- `expandModBinding` (events.go lines 226-244): for one modifier alias,
replace each matching binding in place by its left variant and append the right
variant.  The Go loop runs over the original length only, so appended entries
are not re-examined in the same call; the map/filterMap pair reproduces that. -/
def expandModBinding (bindings : List KeyBinding) (both left right : Keymod) :
    List KeyBinding :=
  (bindings.map fun b =>
    if b.input.mod &&& both = both then
      { b with input := { b.input with mod := andNot b.input.mod both ||| left } }
    else b)
  ++ bindings.filterMap fun b =>
    if b.input.mod &&& both = both then
      some { b with input := { b.input with mod := andNot b.input.mod both ||| right } }
    else none

/-- The expansion of one source entry through all four modifier aliases, in the
order of events.go lines 208-212. -/
def expandEntry (input : KeyInput) (action : KeyAction) : List KeyBinding :=
  let bs := [⟨input, action⟩]
  let bs := expandModBinding bs KMOD_CTRL KMOD_LCTRL KMOD_RCTRL
  let bs := expandModBinding bs KMOD_SHIFT KMOD_LSHIFT KMOD_RSHIFT
  let bs := expandModBinding bs KMOD_ALT KMOD_LALT KMOD_RALT
  expandModBinding bs KMOD_GUI KMOD_LGUI KMOD_RGUI

/-- The write-back loop of `expandModBindings` (events.go lines 213-218): each
expanded binding is checked against `dst`; the conflict test compares the
existing `dst` entry with `src[binding.input]` — the lookup of the *expanded*
input in `src` (zero action when absent), exactly as in the source — and
panics (modelled as `.error`) when they differ. -/
def writeBindings (src : BindTable) : BindTable → List KeyBinding →
    Except String BindTable
  | dst, [] => .ok dst
  | dst, b :: rest =>
    match lookupTable dst b.input with
    | some dstBinding =>
      if dstBinding ≠ (lookupTable src b.input).getD KeyAction.zero then
        .error "conflicting binding: input is bound to two different actions"
      else writeBindings src (setTable dst b.input b.action) rest
    | none => writeBindings src (setTable dst b.input b.action) rest

/-- `expandModBindings` (events.go lines 204-220), iterating the source entries
in list order (the Go map iteration order is unspecified; distinct orders are
distinct possible executions). -/
def expandModBindingsAux (src : BindTable) : BindTable → BindTable →
    Except String BindTable
  | dst, [] => .ok dst
  | dst, (input, action) :: rest =>
    match writeBindings src dst (expandEntry input action) with
    | .error e => .error e
    | .ok dst' => expandModBindingsAux src dst' rest

def expandModBindings (src : BindTable) : Except String BindTable :=
  expandModBindingsAux src [] src

/-- `NewEventHandler` (events.go lines 131-135): copies the bindings, expanding
modifier aliases; a conflict panic is modelled as `.error`. -/
def NewEventHandler (bindings : BindTable) : Except String BindTable :=
  expandModBindings bindings

/-! ## Events and `EventHandler.HandleEvent` -/

/-- `EventType` (events.go lines 39-47). -/
inductive EventType
  | unhandled
  | quit
  | inputMotion
  | inputButton
  | inputScroll
  | inputKey
  | inputUnicode
deriving DecidableEq, Repr

def BUTTON_LEFT : Nat := 1
def BUTTON_MIDDLE : Nat := 2
def BUTTON_RIGHT : Nat := 3

/-- The SDL events distinguished by `HandleEvent`; `other` stands for every
event type that falls to the default branch.  A keyboard event carries its
reduced `KeyInput` (the result of `KeysymInput`, which copies code and
modifier mask unchanged). -/
inductive SDLEvent
  | quit
  | mouseMotion (x y : Int)
  | mouseButton (button : Nat) (clicks : Nat) (pressed : Bool) (x y : Int)
  | mouseWheel (dx dy : Rat)
  | keyboard (pressed : Bool) (sym : KeyInput)
  | textInput (text : List Char)
  | other
deriving DecidableEq, Repr

inductive NkButton
  | left
  | middle
  | right
  | double
deriving DecidableEq, Repr

/-- One call into the Nuklear input session (`nk.Context` input methods). -/
inductive NkInput
  | motion (x y : Int)
  | button (b : NkButton) (x y : Int) (down : Bool)
  | scroll (dx dy : Rat)
  | key (k : NkKey) (down : Bool)
  | unicode (c : Char)
deriving DecidableEq, Repr

/-- `EventHandler.HandleEvent` (events.go lines 140-192): returns the sequence
of input-session calls emitted, the event type, and whether the event was used
by Nuklear. -/
def handleEvent (bindings : BindTable) (e : SDLEvent) :
    List NkInput × EventType × Bool :=
  match e with
  | .quit => ([], .quit, false)
  | .mouseMotion x y => ([.motion x y], .inputMotion, true)
  | .mouseButton button clicks pressed x y =>
    let down := pressed
    let calls : List NkInput :=
      if button = BUTTON_LEFT then
        (if clicks = 2 then [.button .double x y down] else []) ++ [.button .left x y down]
      else if button = BUTTON_RIGHT then [.button .right x y down]
      else if button = BUTTON_MIDDLE then [.button .middle x y down]
      else []
    (calls, .inputButton, true)
  | .mouseWheel dx dy => ([.scroll dx dy], .inputScroll, true)
  | .keyboard pressed sym =>
    let down := pressed
    let action := (lookupTable bindings sym).getD KeyAction.zero
    if action.key1 ≠ NkKey.keyNone then
      ([NkInput.key action.key1 down] ++
        (if action.key2 ≠ NkKey.keyNone then [NkInput.key action.key2 down] else []),
       .inputKey, true)
    else ([], .inputKey, false)
  | .textInput text => (text.map NkInput.unicode, .inputUnicode, true)
  | .other => ([], .unhandled, false)

/-- `DefaultBindings` (events.go lines 11-32), in source order. -/
def DefaultBindings : BindTable :=
  [ (⟨K_LSHIFT, KMOD_NONE⟩, ⟨NkKey.shift, NkKey.keyNone⟩),
    (⟨K_RSHIFT, KMOD_NONE⟩, ⟨NkKey.shift, NkKey.keyNone⟩),
    (⟨K_RETURN, KMOD_NONE⟩, ⟨NkKey.enter, NkKey.keyNone⟩),
    (⟨K_TAB, KMOD_NONE⟩, ⟨NkKey.tab, NkKey.keyNone⟩),
    (⟨K_BACKSPACE, KMOD_NONE⟩, ⟨NkKey.backspace, NkKey.keyNone⟩),
    (⟨K_HOME, KMOD_NONE⟩, ⟨NkKey.textStart, NkKey.scrollStart⟩),
    (⟨K_END, KMOD_NONE⟩, ⟨NkKey.textEnd, NkKey.scrollEnd⟩),
    (⟨K_PAGEUP, KMOD_NONE⟩, ⟨NkKey.scrollUp, NkKey.keyNone⟩),
    (⟨K_PAGEDOWN, KMOD_NONE⟩, ⟨NkKey.keyNone, NkKey.scrollDown⟩),
    (⟨K_UP, KMOD_NONE⟩, ⟨NkKey.up, NkKey.keyNone⟩),
    (⟨K_DOWN, KMOD_NONE⟩, ⟨NkKey.down, NkKey.keyNone⟩),
    (⟨K_LEFT, KMOD_NONE⟩, ⟨NkKey.left, NkKey.keyNone⟩),
    (⟨K_RIGHT, KMOD_NONE⟩, ⟨NkKey.right, NkKey.keyNone⟩),
    (⟨K_c, KMOD_CTRL⟩, ⟨NkKey.copy, NkKey.keyNone⟩),
    (⟨K_x, KMOD_CTRL⟩, ⟨NkKey.cut, NkKey.keyNone⟩),
    (⟨K_v, KMOD_CTRL⟩, ⟨NkKey.paste, NkKey.keyNone⟩),
    (⟨K_a, KMOD_CTRL⟩, ⟨NkKey.textLineStart, NkKey.keyNone⟩),
    (⟨K_e, KMOD_CTRL⟩, ⟨NkKey.textLineEnd, NkKey.keyNone⟩),
    (⟨K_z, KMOD_CTRL⟩, ⟨NkKey.textUndo, NkKey.keyNone⟩),
    (⟨K_z, KMOD_CTRL ||| KMOD_SHIFT⟩, ⟨NkKey.textRedo, NkKey.keyNone⟩) ]

/-- The binding table a Driver built over `DefaultBindings` actually consults:
the alias-expanded copy produced by `NewEventHandler` (which succeeds on the
default table). -/
def defaultHandlerTable : BindTable :=
  match NewEventHandler DefaultBindings with
  | .ok t => t
  | .error _ => []

/-! ## Renderer state and `Driver.PostRender`

The SDL renderer is modelled by the state `PostRender` reads and writes:
geometry scale, clip rectangle (`none` = clipping disabled, as with
`SDL_RenderSetClipRect(NULL)`; `some r` = clipping enabled with `r`, even when
`r` has zero area), the read-only viewport, and a presented flag.
`sdl.Renderer.GetClipRect` returns the zero rectangle when clipping is
disabled.  Fallible renderer/Nuklear calls are driven by a failure oracle
`PostEnv`; a failing call leaves the renderer state unchanged. -/

structure SDLRect where
  x : Int
  y : Int
  w : Int
  h : Int
deriving DecidableEq, Repr

def zeroRect : SDLRect := ⟨0, 0, 0, 0⟩

structure RendererState where
  scaleX : Rat
  scaleY : Rat
  clip : Option SDLRect
  viewport : SDLRect
  presented : Bool
deriving DecidableEq, Repr

/-- `sdl.Renderer.GetClipRect`: the zero rectangle when clipping is disabled. -/
def getClipRect (s : RendererState) : SDLRect := s.clip.getD zeroRect

/-- One Nuklear draw command as `PostRender` consumes it: element count,
clip rectangle (already converted to `int32` fields as in part_001 lines
229-234), and the opaque texture handle. -/
structure DrawCommand where
  elemCount : Nat
  clipRect : SDLRect
  texture : Nat
deriving DecidableEq, Repr

/-- The clip clamp applied when `clampClipRect` is set (part_001 lines
236-251), translated verbatim from the source: note that the first branch adds
`clipRect.H`, not `clipRect.X`, to `clipRect.W`. -/
def clampClip (viewport r : SDLRect) : SDLRect :=
  let r := if r.x < 0 then { r with w := r.w + r.h, x := 0 } else r
  let r := if r.y < 0 then { r with h := r.h + r.y, y := 0 } else r
  let r := if r.w > viewport.w then { r with w := viewport.w } else r
  if r.h > viewport.h then { r with h := viewport.h } else r

/-- The clamp as the specification describes it: a negative X (resp. Y) is set
to 0 and the width (resp. height) is reduced by the amount that was below
zero, preserving the right (resp. bottom) edge, then width/height are capped
at the viewport.  Stated only for comparison with `clampClip`. -/
def clampClipSpec (viewport r : SDLRect) : SDLRect :=
  let r := if r.x < 0 then { r with w := r.w + r.x, x := 0 } else r
  let r := if r.y < 0 then { r with h := r.h + r.y, y := 0 } else r
  let r := if r.w > viewport.w then { r with w := viewport.w } else r
  if r.h > viewport.h then { r with h := viewport.h } else r

/-- Failure oracle for the external calls `PostRender` makes.  `setClipOk i`
and `renderOk i` report whether `SetClipRect`/`RenderGeometry` succeed for the
draw command at position `i`. -/
structure PostEnv where
  setScaleOk : Bool
  restoreScaleOk : Bool
  convertOk : Bool
  setClipOk : Nat → Bool
  renderOk : Nat → Bool
  restoreClipOk : Bool

def postEnvAllOk : PostEnv :=
  ⟨true, true, true, fun _ => true, fun _ => true, true⟩

inductive PostResult
  | ok
  | errSetScale
  | errConvert
  | errDraw
  | errRestoreClip
  | errRestoreScale
deriving DecidableEq, Repr

/-- State threaded through the `DrawForEach` callback (part_001 lines
224-264): renderer state, the index-buffer cursor (`indices` slice offset),
the issued `RenderGeometry` calls as (texture, cursor, element count), the
rectangles passed to `SetClipRect`, and whether the callback aborted. -/
structure DrawState where
  rs : RendererState
  cursor : Nat
  draws : List (Nat × Nat × Nat)
  clips : List SDLRect
  failed : Bool
deriving DecidableEq, Repr

/-- The body of the `DrawForEach` callback for the command at position `i`. -/
def drawStep (clampClipRect : Bool) (env : PostEnv) (i : Nat) (st : DrawState)
    (cmd : DrawCommand) : DrawState :=
  if st.failed then st
  else if cmd.elemCount = 0 then st
  else
    let clipRect :=
      if clampClipRect then clampClip st.rs.viewport cmd.clipRect else cmd.clipRect
    if env.setClipOk i = false then { st with failed := true }
    else
      let st := { st with
        rs := { st.rs with clip := some clipRect },
        clips := st.clips ++ [clipRect] }
      let st := { st with draws := st.draws ++ [(cmd.texture, st.cursor, cmd.elemCount)] }
      if env.renderOk i = false then { st with failed := true }
      else { st with cursor := st.cursor + cmd.elemCount }

def drawLoop (clampClipRect : Bool) (env : PostEnv) :
    Nat → DrawState → List DrawCommand → DrawState
  | _, st, [] => st
  | i, st, cmd :: rest =>
    drawLoop clampClipRect env (i + 1) (drawStep clampClipRect env i st cmd) rest

/-- The deferred `SetScale(scaleX, scaleY)` of part_001 lines 209-213: restores
the saved scale when the call succeeds, leaves the state unchanged when it
fails. -/
def restoreScale (env : PostEnv) (sx sy : Rat) (rs : RendererState) : RendererState :=
  if env.restoreScaleOk then { rs with scaleX := sx, scaleY := sy } else rs

structure PostOutcome where
  rs : RendererState
  draws : List (Nat × Nat × Nat)
  clips : List SDLRect
  result : PostResult
deriving DecidableEq, Repr

/-- `Driver.PostRender` (part_001 lines 204-273).  The deferred scale restore
applies on every exit path after the initial `SetScale` succeeded; a failing
restore turns a nil error into `errRestoreScale` but never replaces an
existing error (line 210: `err2 != nil && err == nil`). -/
def postRender (uiScale : Rat) (clampClipRect : Bool) (cmds : List DrawCommand)
    (env : PostEnv) (s0 : RendererState) : PostOutcome :=
  let scaleX := s0.scaleX
  let scaleY := s0.scaleY
  if env.setScaleOk = false then ⟨s0, [], [], .errSetScale⟩
  else
    let s1 : RendererState := { s0 with scaleX := uiScale, scaleY := uiScale }
    if env.convertOk = false then
      ⟨restoreScale env scaleX scaleY s1, [], [], .errConvert⟩
    else
      let oldClipRect := getClipRect s1
      let st := drawLoop clampClipRect env 0 ⟨s1, 0, [], [], false⟩ cmds
      if st.failed then
        ⟨restoreScale env scaleX scaleY st.rs, st.draws, st.clips, .errDraw⟩
      else if env.restoreClipOk = false then
        ⟨restoreScale env scaleX scaleY st.rs, st.draws, st.clips, .errRestoreClip⟩
      else
        let s2 := { st.rs with clip := some oldClipRect }
        let s3 := { s2 with presented := true }
        ⟨restoreScale env scaleX scaleY s3, st.draws, st.clips,
          if env.restoreScaleOk then .ok else .errRestoreScale⟩

/-! ## `Driver.Init` -/

/-- The fallible steps of `Driver.Init` (part_001 lines 99-151), in source
order.  `CreateConvertConfig` and the buffer allocations at the end cannot
fail. -/
inductive InitStep
  | initSDL
  | createWindow
  | createRenderer
  | getRendererInfo
  | createContext
  | createFontAtlas
  | createFont
  | createLargeFont
  | bakeFont
deriving DecidableEq, Repr

/-- Which steps fail when attempted (the first failing step aborts `Init`). -/
structure InitEnv where
  fails : InitStep → Bool

/-- The context string each step's error is wrapped with (the `fmt.Errorf`
format prefixes of part_001; "atlast" is the source's own spelling). -/
def initStepMsg : InitStep → String
  | .initSDL => "initializing SDL"
  | .createWindow => "creating SDL window"
  | .createRenderer => "creating SDL renderer"
  | .getRendererInfo => "getting SDL renderer info"
  | .createContext => "creating Nuklear context"
  | .createFontAtlas => "creating font atlast"
  | .createFont => "creating font"
  | .createLargeFont => "creating large font"
  | .bakeFont => "baking font"

structure InitOutcome where
  err : Option String
  destroyCalled : Bool
deriving DecidableEq, Repr

/-- Shallow embedding of `Driver.Init`'s unwinding behaviour.  The Go function
declares `var err error` and defers `if err != nil { d.Destroy() }`
(lines 100-105).  Every fallible step assigns the outer `err` before
returning — except the renderer-info step, whose
`if info, err := d.renderer.GetInfo(); err != nil` (line 115) is a short
variable declaration that shadows the outer `err`, so on that path the
deferred check observes `nil` and `Destroy` is not invoked.  `destroyCalled`
records whether the deferred teardown ran. -/
def runInit (env : InitEnv) : InitOutcome :=
  if env.fails .initSDL then ⟨some (initStepMsg .initSDL), true⟩
  else if env.fails .createWindow then ⟨some (initStepMsg .createWindow), true⟩
  else if env.fails .createRenderer then ⟨some (initStepMsg .createRenderer), true⟩
  else if env.fails .getRendererInfo then ⟨some (initStepMsg .getRendererInfo), false⟩
  else if env.fails .createContext then ⟨some (initStepMsg .createContext), true⟩
  else if env.fails .createFontAtlas then ⟨some (initStepMsg .createFontAtlas), true⟩
  else if env.fails .createFont then ⟨some (initStepMsg .createFont), true⟩
  else if env.fails .createLargeFont then ⟨some (initStepMsg .createLargeFont), true⟩
  else if env.fails .bakeFont then ⟨some (initStepMsg .bakeFont), true⟩
  else ⟨none, false⟩

/-! ## `Driver.Destroy` -/

/-- Which Driver resource fields are populated (`true`) or nil (`false`) —
an arbitrary subset, as after a failed `Init`. -/
structure DriverRes where
  window : Bool
  renderer : Bool
  fontTex : Bool
  context : Bool
  atlas : Bool
  convertConf : Bool
  commands : Bool
  elements : Bool
  vertices : Bool
deriving DecidableEq, Repr

/-- Whether each SDL `Destroy` call errors when attempted (the Nuklear `Free`
calls return nothing). -/
structure DestroyEnv where
  windowErr : Bool
  rendererErr : Bool
  fontTexErr : Bool
deriving DecidableEq, Repr

/-- The release actions `Driver.Destroy` can perform, named by resource. -/
inductive ReleaseAct
  | freeVertices
  | freeElements
  | freeCommands
  | freeConvertConf
  | freeAtlas
  | freeContext
  | destroyFontTex
  | destroyRenderer
  | destroyWindow
  | sdlQuit
deriving DecidableEq, Repr

structure DestroyOutcome where
  trace : List ReleaseAct
  err : Option ReleaseAct
deriving DecidableEq, Repr

/-- `Driver.Destroy` (part_001 lines 277-308).  All work happens in deferred
calls, which run in reverse declaration order: the six Nuklear `Free` calls
(each nil-safe, invoked unconditionally, per the source comment on line 300),
then the font texture, renderer and window destructions (each guarded by a nil
check and each assigning the returned error only when no earlier error was
recorded), then `sdl.Quit`.  The trace lists the release calls in execution
order; `err` is the error `Destroy` returns. -/
def destroyRun (d : DriverRes) (env : DestroyEnv) : DestroyOutcome :=
  let t0 : List ReleaseAct :=
    [.freeVertices, .freeElements, .freeCommands, .freeConvertConf, .freeAtlas, .freeContext]
  let t1 := if d.fontTex then t0 ++ [ReleaseAct.destroyFontTex] else t0
  let e1 : Option ReleaseAct :=
    if d.fontTex ∧ env.fontTexErr then some .destroyFontTex else none
  let t2 := if d.renderer then t1 ++ [ReleaseAct.destroyRenderer] else t1
  let e2 := if d.renderer ∧ env.rendererErr ∧ e1 = none then some ReleaseAct.destroyRenderer else e1
  let t3 := if d.window then t2 ++ [ReleaseAct.destroyWindow] else t2
  let e3 := if d.window ∧ env.windowErr ∧ e2 = none then some ReleaseAct.destroyWindow else e2
  ⟨t3 ++ [.sdlQuit], e3⟩

/-! ## `Driver.PreRender` -/

/-- Result of the optional `EventListener` callback: `quitErr` is the listener
returning `ErrQuit`, `fail` any other non-nil error. -/
inductive ListenerResult
  | ok
  | quitErr
  | fail
deriving DecidableEq, Repr

/-- The Driver configuration `PreRender` consults. -/
structure PreDriver where
  bindings : BindTable
  eventListener : Option (SDLEvent → EventType → Bool → ListenerResult)
  uiScale : Rat

/-- `ErrQuit` is the distinguished quit sentinel (part_001 lines 349-357);
errListener is the wrapped error returned when the listener fails. -/
inductive PreResult
  | ok
  | errQuit
  | errListener
  | errGetDrawColor
  | errSetDrawColor
  | errClear
  | errRestoreDrawColor
deriving DecidableEq, Repr

structure PreEnv where
  getDrawColorOk : Bool
  setDrawColorOk : Bool
  clearOk : Bool
  restoreDrawColorOk : Bool
deriving DecidableEq, Repr

/-- The event pump of `PreRender` (part_001 lines 160-172): drains the queue
front to back; each event goes through `HandleEvent`; with a listener, `alive`
is cleared only when the listener returns `ErrQuit`, and any other listener
error returns immediately (mid-drain); with no listener, `alive` is cleared
when the event type is quit.  Accumulates the drained events and the emitted
input-session calls. -/
def drainEvents (d : PreDriver) :
    List SDLEvent → Bool → List SDLEvent → List NkInput →
    List SDLEvent × List NkInput × Bool × Option PreResult
  | [], alive, handled, inputs => (handled, inputs, alive, none)
  | e :: rest, alive, handled, inputs =>
    let r := handleEvent d.bindings e
    match d.eventListener with
    | some f =>
      match f e r.2.1 r.2.2 with
      | .quitErr => drainEvents d rest false (handled ++ [e]) (inputs ++ r.1)
      | .ok => drainEvents d rest alive (handled ++ [e]) (inputs ++ r.1)
      | .fail => (handled ++ [e], inputs ++ r.1, alive, some .errListener)
    | none =>
      if r.2.1 = EventType.quit then drainEvents d rest false (handled ++ [e]) (inputs ++ r.1)
      else drainEvents d rest alive (handled ++ [e]) (inputs ++ r.1)

structure PreOutcome where
  handled : List SDLEvent
  inputs : List NkInput
  largeFontChosen : Option Bool
  result : PreResult
deriving Repr

/-- `Driver.PreRender` (part_001 lines 156-198): drains and translates the
event queue, then returns `ErrQuit` if termination was marked; otherwise
saves/sets the draw color, clears, and picks the large font iff the UI scale
exceeds 1.5 (`largeFontChosen` is `none` on paths that return before the font
selection). -/
def preRender (d : PreDriver) (queue : List SDLEvent) (env : PreEnv) : PreOutcome :=
  match drainEvents d queue true [] [] with
  | (handled, inputs, _, some r) => ⟨handled, inputs, none, r⟩
  | (handled, inputs, alive, none) =>
    if alive = false then ⟨handled, inputs, none, .errQuit⟩
    else if env.getDrawColorOk = false then ⟨handled, inputs, none, .errGetDrawColor⟩
    else if env.setDrawColorOk = false then ⟨handled, inputs, none, .errSetDrawColor⟩
    else if env.clearOk = false then ⟨handled, inputs, none, .errClear⟩
    else
      ⟨handled, inputs, some (decide (d.uiScale > 3 / 2)),
        if env.restoreDrawColorOk then .ok else .errRestoreDrawColor⟩

/-! ## `Driver.SetUIScale` -/

/-- A `float32` value as the scale validation observes it: NaN, a signed
infinity, or a finite value (modelled as an exact rational; `SetUIScale` only
compares against 0 and 5 and stores the value, so rounding plays no role). -/
inductive F32
  | nan
  | inf (neg : Bool)
  | fin (q : Rat)
deriving DecidableEq, Repr

/-- IEEE `<` on the modelled values: NaN is incomparable with everything. -/
def F32.lt : F32 → F32 → Bool
  | .nan, _ => false
  | _, .nan => false
  | .inf true, .inf true => false
  | .inf true, _ => true
  | _, .inf true => false
  | .inf false, _ => false
  | .fin _, .inf false => true
  | .fin a, .fin b => decide (a < b)

/-- IEEE `==`: NaN compares unequal to everything, itself included, so the
source's `uiScale != uiScale` NaN test is `!F32.beq x x`. -/
def F32.beq : F32 → F32 → Bool
  | .fin a, .fin b => a == b
  | .inf a, .inf b => a == b
  | _, _ => false

/-- `float32(a) / float32(b)` for the two `int32` sizes `computeUIScale`
divides (exact rational quotient; IEEE zero-division cases kept). -/
def f32div (a b : Int) : F32 :=
  if b = 0 then (if a = 0 then F32.nan else F32.inf (a < 0))
  else F32.fin ((a : Rat) / (b : Rat))

/-- The renderer/window geometry `computeUIScale` reads, plus whether
`GetOutputSize` succeeds. -/
structure ScaleEnv where
  getOutputSizeOk : Bool
  renderW : Int
  renderH : Int
  windowW : Int
  windowH : Int
deriving DecidableEq, Repr

/-- `Driver.SetUIScale` (part_001 lines 82-94) with `computeUIScale` (lines
332-347) inlined for the zero case: returns the new stored scale and the
error, if any.  `cur` is the Driver's stored `uiScale` field, which is left
unchanged on every error path.  `computeUIScale` stores the vertical ratio
`renderH / windowH` (warning, but not erroring, when the horizontal ratio
differs). -/
def setUIScale (cur : F32) (uiScale : F32) (env : ScaleEnv) : F32 × Option String :=
  if (F32.beq uiScale uiScale = false) ∨ F32.lt uiScale (F32.fin 0) ∨ F32.lt (F32.fin 5) uiScale then
    (cur, some "uiScale is out of bounds")
  else if F32.beq uiScale (F32.fin 0) then
    if env.getOutputSizeOk = false then (cur, some "computing UI scale: getting renderer output size")
    else (f32div env.renderH env.windowH, none)
  else (uiScale, none)

/-! ## Auxiliary definitions and concrete fixtures used by the theorems -/

/-- The clip rectangle a draw command yields: the command's own rectangle,
clamped when the renderer-quirk flag is set (part_001 lines 229-251). -/
def clipFor (clampClipRect : Bool) (viewport r : SDLRect) : SDLRect :=
  if clampClipRect then clampClip viewport r else r

/-- The input-session calls a queue of events produces, in order. -/
def eventInputs (bindings : BindTable) : List SDLEvent → List NkInput
  | [] => []
  | e :: rest => (handleEvent bindings e).1 ++ eventInputs bindings rest

/-- Whether a queue holds a quit event. -/
def hasQuit : List SDLEvent → Bool
  | [] => false
  | e :: rest => e == SDLEvent.quit || hasQuit rest

def copyAction : KeyAction := ⟨NkKey.copy, NkKey.keyNone⟩
def cutAction : KeyAction := ⟨NkKey.cut, NkKey.keyNone⟩
def ctrlC : KeyInput := ⟨K_c, KMOD_CTRL⟩
def lctrlC : KeyInput := ⟨K_c, KMOD_LCTRL⟩
def rctrlC : KeyInput := ⟨K_c, KMOD_RCTRL⟩

/-- A renderer state with clipping disabled, an 800×600 viewport and unit
scale. -/
def rs800 : RendererState := ⟨1, 1, none, ⟨0, 0, 800, 600⟩, false⟩

/-- The run of `Init` in which exactly the renderer-info query fails. -/
def getInfoFailEnv : InitEnv := ⟨fun s => decide (s = InitStep.getRendererInfo)⟩

/-- The run of `Init` in which exactly window creation fails. -/
def windowFailEnv : InitEnv := ⟨fun s => decide (s = InitStep.createWindow)⟩

/-- An event listener that handles every event without error (returns nil). -/
def passiveListener : SDLEvent → EventType → Bool → ListenerResult := fun _ _ _ => .ok

def preEnvAllOk : PreEnv := ⟨true, true, true, true⟩

/-! ## Theorems -/

/-- C1: the claim fails on the code.  With the renderer-quirk clamp flagged,
the clamp for a negative X does not preserve the rectangle's right edge: the
source (part_001 line 238) adds `clipRect.H` to `clipRect.W` where the stated
behaviour — and the Y branch's own pattern — requires adding `clipRect.X`.
At clip (-10, 0, 100, 50) in an 800×600 viewport, `PostRender` passes
(0, 0, 150, 50) to the renderer while the claimed clamp yields (0, 0, 90, 50). -/
theorem clampClip_mixes_height_into_width :
    clampClip ⟨0, 0, 800, 600⟩ ⟨-10, 0, 100, 50⟩ = ⟨0, 0, 150, 50⟩
    ∧ clampClipSpec ⟨0, 0, 800, 600⟩ ⟨-10, 0, 100, 50⟩ = ⟨0, 0, 90, 50⟩
    ∧ (postRender 1 true [⟨3, ⟨-10, 0, 100, 50⟩, 7⟩] postEnvAllOk rs800).clips
        = [⟨0, 0, 150, 50⟩] := by
  refine ⟨by decide, by decide, ?_⟩
  rfl

/-- C2: the claim fails on the code.  When the renderer had clipping disabled
before `PostRender` (so `GetClipRect` returned the zero rectangle), the
restore at part_001 line 268 unconditionally passes `&oldClipRect`, leaving
the renderer with an enabled zero-area clip rather than clipping disabled —
the behaviour the changelog's v0.3.1 entry documents as a fixed bug. -/
theorem postRender_restores_zero_area_clip :
    (postRender 1 false [] postEnvAllOk rs800).rs.clip = some zeroRect
    ∧ (postRender 1 false [] postEnvAllOk rs800).result = PostResult.ok
    ∧ some zeroRect ≠ (none : Option SDLRect) := by
  refine ⟨?_, ?_, by decide⟩ <;> rfl

/-- C3: the claim's panic guarantee fails on the code.  The conflict test at
events.go line 214 compares the existing `dst` entry against
`src[binding.input]` — the source-table lookup of the *expanded* input —
instead of the action being written.  With LCtrl+C explicitly bound to Cut and
Ctrl+C (the alias) bound to Copy, the iteration order that processes the
LCtrl entry first raises no panic and silently rebinds LCtrl+C to Copy, while
the opposite order panics; Go map iteration order is unspecified, so both are
possible executions of `NewEventHandler`. -/
theorem newEventHandler_conflict_order_dependent :
    NewEventHandler [(lctrlC, cutAction), (ctrlC, copyAction)]
      = .ok [(lctrlC, copyAction), (rctrlC, copyAction)]
    ∧ NewEventHandler [(ctrlC, copyAction), (lctrlC, cutAction)]
      = .error "conflicting binding: input is bound to two different actions" := by
  exact ⟨rfl, rfl⟩

/-- C4: the claim fails on the code for one step.  `Init` wraps every step's
error with the step's name, and its deferred `if err != nil { d.Destroy() }`
unwinds every failing step — except the renderer-info query, where
`if info, err := d.renderer.GetInfo(); err != nil` (part_001 line 115) shadows
the outer `err`, so that failure returns its wrapped error without invoking
`Destroy`.  A failing window creation, by contrast, does trigger teardown. -/
theorem runInit_getInfo_failure_skips_destroy :
    runInit getInfoFailEnv = ⟨some "getting SDL renderer info", false⟩
    ∧ runInit windowFailEnv = ⟨some "creating SDL window", true⟩ := by
  exact ⟨rfl, rfl⟩

/-- C5: `Destroy` is total on every resource configuration (each release step
nil-tolerant), attempts every release regardless of earlier errors — the six
Nuklear frees always run first, each SDL destruction runs exactly when its
resource is populated, `sdl.Quit` always runs last — and returns the first
release error in execution order (font texture, then renderer, then window). -/
theorem destroyRun_nil_tolerant_first_error (d : DriverRes) (env : DestroyEnv) :
    (destroyRun d env).trace.take 6 =
      [ReleaseAct.freeVertices, ReleaseAct.freeElements, ReleaseAct.freeCommands,
       ReleaseAct.freeConvertConf, ReleaseAct.freeAtlas, ReleaseAct.freeContext]
    ∧ (ReleaseAct.destroyFontTex ∈ (destroyRun d env).trace ↔ d.fontTex = true)
    ∧ (ReleaseAct.destroyRenderer ∈ (destroyRun d env).trace ↔ d.renderer = true)
    ∧ (ReleaseAct.destroyWindow ∈ (destroyRun d env).trace ↔ d.window = true)
    ∧ (destroyRun d env).trace.getLast? = some ReleaseAct.sdlQuit
    ∧ (destroyRun d env).err =
        (if d.fontTex ∧ env.fontTexErr then some ReleaseAct.destroyFontTex
         else if d.renderer ∧ env.rendererErr then some ReleaseAct.destroyRenderer
         else if d.window ∧ env.windowErr then some ReleaseAct.destroyWindow
         else none) := by
  rcases d with ⟨w, r, f, c, a, cc, cm, el, v⟩
  rcases env with ⟨we, re, fe⟩
  cases w <;> cases r <;> cases f <;> cases we <;> cases re <;> cases fe <;>
    simp [destroyRun]

/-- `HandleEvent` classifies an event as quit exactly for the quit event. -/
theorem handleEvent_quit_type (bindings : BindTable) (e : SDLEvent) :
    (handleEvent bindings e).2.1 = EventType.quit ↔ e = SDLEvent.quit := by
  cases e <;> simp [handleEvent]
  split <;> simp

/-- With no event listener, the pump drains the whole queue (it never returns
early), emits the events' translations in order, and clears `alive` exactly
when the queue holds a quit event. -/
theorem drainEvents_no_listener (d : PreDriver) (hl : d.eventListener = none)
    (queue : List SDLEvent) :
    ∀ (alive : Bool) (handled : List SDLEvent) (inputs : List NkInput),
      drainEvents d queue alive handled inputs =
        (handled ++ queue, inputs ++ eventInputs d.bindings queue,
          alive && !hasQuit queue, none) := by
  induction queue with
  | nil => intro alive handled inputs; simp [drainEvents, eventInputs, hasQuit]
  | cons e rest ih =>
    intro alive handled inputs
    by_cases he : e = SDLEvent.quit
    · subst he
      simp only [drainEvents, hl]
      rw [if_pos (by simp [handleEvent])]
      rw [ih]
      simp [eventInputs, hasQuit, handleEvent]
    · simp only [drainEvents, hl]
      rw [if_neg (fun h => he ((handleEvent_quit_type d.bindings e).mp h))]
      rw [ih]
      have : (e == SDLEvent.quit) = false := by
        simp [he]
      simp [eventInputs, hasQuit, this]

/-- C6 (amended): when no event listener is configured, a queue containing a
quit event is drained and translated in full — `PreRender` does not stop at
the quit event — and the same call returns the quit sentinel `ErrQuit`. -/
theorem preRender_no_listener_quit (d : PreDriver) (queue : List SDLEvent) (env : PreEnv)
    (hl : d.eventListener = none) (hq : SDLEvent.quit ∈ queue) :
    (preRender d queue env).handled = queue
    ∧ (preRender d queue env).inputs = eventInputs d.bindings queue
    ∧ (preRender d queue env).result = PreResult.errQuit := by
  have hq' : hasQuit queue = true := by
    induction queue with
    | nil => cases hq
    | cons e rest ih =>
      rcases List.mem_cons.mp hq with h | h
      · simp [hasQuit, ← h]
      · simp [hasQuit, ih h]
  have hd := drainEvents_no_listener d hl queue true [] []
  simp [preRender, hd, hq']

/-- Witness for `preRender_no_listener_quit` at a concrete two-event queue. -/
theorem preRender_no_listener_quit_witness :
    (preRender ⟨[], none, 1⟩ [SDLEvent.other, SDLEvent.quit] preEnvAllOk).handled
        = [SDLEvent.other, SDLEvent.quit]
    ∧ (preRender ⟨[], none, 1⟩ [SDLEvent.other, SDLEvent.quit] preEnvAllOk).inputs
        = eventInputs [] [SDLEvent.other, SDLEvent.quit]
    ∧ (preRender ⟨[], none, 1⟩ [SDLEvent.other, SDLEvent.quit] preEnvAllOk).result
        = PreResult.errQuit :=
  preRender_no_listener_quit ⟨[], none, 1⟩ [SDLEvent.other, SDLEvent.quit] preEnvAllOk
    rfl (by decide)

/-- C6 counterexample: with an event listener configured that returns nil for
every event (so it never returns `ErrQuit`), a pending queue consisting of a
quit event is fully drained yet `PreRender` returns nil, not `ErrQuit` — the
quit branch belongs to the listener on that path (part_001 lines 163-171). -/
theorem preRender_listener_swallows_quit :
    (preRender ⟨[], some passiveListener, 1⟩ [SDLEvent.quit] preEnvAllOk).result
        = PreResult.ok
    ∧ (preRender ⟨[], some passiveListener, 1⟩ [SDLEvent.quit] preEnvAllOk).handled
        = [SDLEvent.quit]
    ∧ PreResult.ok ≠ PreResult.errQuit := by
  exact ⟨rfl, rfl, by decide⟩

/-- C7: `SetUIScale` rejects NaN, negative and >5 arguments with an error,
leaving the stored scale unchanged; stores any value in (0,5] directly; and
for 0 auto-detects the scale as the ratio of the renderer's actual output
size to the logical window size (the vertical ratio `renderH / windowH`, as
`computeUIScale` stores). -/
theorem setUIScale_validation (cur x : F32) (env : ScaleEnv) :
    ((x = F32.nan ∨ F32.lt x (F32.fin 0) = true ∨ F32.lt (F32.fin 5) x = true) →
      (setUIScale cur x env).1 = cur ∧ (setUIScale cur x env).2 ≠ none)
    ∧ (∀ q : Rat, x = F32.fin q → 0 < q → q ≤ 5 →
      setUIScale cur x env = (F32.fin q, none))
    ∧ (x = F32.fin 0 → env.getOutputSizeOk = true →
      setUIScale cur x env = (f32div env.renderH env.windowH, none)) := by
  refine ⟨?_, ?_, ?_⟩
  · rintro (h | h | h)
    · subst h; simp [setUIScale, F32.beq]
    · simp [setUIScale, h]
    · simp [setUIScale, h]
  · rintro q rfl h0 h5
    have hb : F32.beq (F32.fin q) (F32.fin q) = true := by simp [F32.beq]
    have h1 : F32.lt (F32.fin q) (F32.fin 0) = false := by
      simp [F32.lt, not_lt.mpr h0.le]
    have h2 : F32.lt (F32.fin 5) (F32.fin q) = false := by
      simp [F32.lt, not_lt.mpr h5]
    have h3 : F32.beq (F32.fin q) (F32.fin 0) = false := by
      simp [F32.beq, h0.ne']
    simp [setUIScale, hb, h1, h2, h3]
  · rintro rfl hok
    simp [setUIScale, F32.beq, F32.lt, hok]

/-- Witness for `setUIScale_validation`: the in-range argument 3 is stored
directly. -/
theorem setUIScale_validation_witness :
    setUIScale (F32.fin 1) (F32.fin 3) ⟨true, 1600, 1200, 800, 600⟩ = (F32.fin 3, none) :=
  (setUIScale_validation (F32.fin 1) (F32.fin 3) ⟨true, 1600, 1200, 800, 600⟩).2.1 3 rfl
    (by norm_num) (by norm_num)

/-- C8: a draw command with element count zero is skipped entirely — no clip
set, no draw call, no index-cursor movement — while a command with non-zero
element count whose renderer calls succeed issues exactly one draw from the
cursor's current position and advances the cursor by exactly its element
count. -/
theorem drawStep_zero_skip_nonzero_advance (clamp : Bool) (env : PostEnv) (i : Nat)
    (st : DrawState) (cmd : DrawCommand) (hok : st.failed = false) :
    (cmd.elemCount = 0 → drawStep clamp env i st cmd = st)
    ∧ (cmd.elemCount ≠ 0 → env.setClipOk i = true → env.renderOk i = true →
        drawStep clamp env i st cmd =
          { rs := { st.rs with clip := some (clipFor clamp st.rs.viewport cmd.clipRect) },
            cursor := st.cursor + cmd.elemCount,
            draws := st.draws ++ [(cmd.texture, st.cursor, cmd.elemCount)],
            clips := st.clips ++ [clipFor clamp st.rs.viewport cmd.clipRect],
            failed := false }) := by
  constructor
  · intro h0
    simp [drawStep, hok, h0]
  · intro hne hclip hrender
    simp [drawStep, clipFor, hok, hne, hclip, hrender]

/-- Witness for `drawStep_zero_skip_nonzero_advance`: a six-element command at
cursor 0 issues one draw and moves the cursor to 6. -/
theorem drawStep_zero_skip_nonzero_advance_witness :
    drawStep false postEnvAllOk 0 ⟨rs800, 0, [], [], false⟩ ⟨6, ⟨1, 2, 3, 4⟩, 9⟩ =
      { rs := { rs800 with clip := some ⟨1, 2, 3, 4⟩ },
        cursor := 6, draws := [(9, 0, 6)], clips := [⟨1, 2, 3, 4⟩], failed := false } :=
  (drawStep_zero_skip_nonzero_advance false postEnvAllOk 0 ⟨rs800, 0, [], [], false⟩
      ⟨6, ⟨1, 2, 3, 4⟩, 9⟩ rfl).2 (by decide) rfl rfl

/-- `restoreScale` touches only the scale fields. -/
theorem restoreScale_preserves (env : PostEnv) (a b : Rat) (rs : RendererState) :
    (restoreScale env a b rs).clip = rs.clip
    ∧ (restoreScale env a b rs).viewport = rs.viewport
    ∧ (restoreScale env a b rs).presented = rs.presented := by
  unfold restoreScale
  split <;> simp

/-- C9: whenever the initial `SetScale` and the deferred restoring `SetScale`
succeed, the renderer's geometry scale upon return from `PostRender` equals
the scale before the call, on every exit path (convert failure, draw-loop
abort, clip-restore failure, and success), and the scale handling modifies no
other renderer state. -/
theorem postRender_scale_restored (uiScale : Rat) (clamp : Bool) (cmds : List DrawCommand)
    (env : PostEnv) (s0 : RendererState)
    (hinit : env.setScaleOk = true) (hrestore : env.restoreScaleOk = true) :
    ((postRender uiScale clamp cmds env s0).rs.scaleX = s0.scaleX
      ∧ (postRender uiScale clamp cmds env s0).rs.scaleY = s0.scaleY)
    ∧ ((restoreScale env s0.scaleX s0.scaleY (postRender uiScale clamp cmds env s0).rs).clip
          = (postRender uiScale clamp cmds env s0).rs.clip
      ∧ (restoreScale env s0.scaleX s0.scaleY (postRender uiScale clamp cmds env s0).rs).viewport
          = (postRender uiScale clamp cmds env s0).rs.viewport
      ∧ (restoreScale env s0.scaleX s0.scaleY (postRender uiScale clamp cmds env s0).rs).presented
          = (postRender uiScale clamp cmds env s0).rs.presented) := by
  refine ⟨?_, restoreScale_preserves env s0.scaleX s0.scaleY _⟩
  unfold postRender
  simp only [hinit]
  constructor <;> (split_ifs <;> simp [restoreScale, hrestore])

/-- Witness for `postRender_scale_restored` at a concrete successful run. -/
theorem postRender_scale_restored_witness :
    (((postRender 2 false [] postEnvAllOk rs800).rs.scaleX = rs800.scaleX
      ∧ (postRender 2 false [] postEnvAllOk rs800).rs.scaleY = rs800.scaleY)
    ∧ ((restoreScale postEnvAllOk rs800.scaleX rs800.scaleY
            (postRender 2 false [] postEnvAllOk rs800).rs).clip
          = (postRender 2 false [] postEnvAllOk rs800).rs.clip
      ∧ (restoreScale postEnvAllOk rs800.scaleX rs800.scaleY
            (postRender 2 false [] postEnvAllOk rs800).rs).viewport
          = (postRender 2 false [] postEnvAllOk rs800).rs.viewport
      ∧ (restoreScale postEnvAllOk rs800.scaleX rs800.scaleY
            (postRender 2 false [] postEnvAllOk rs800).rs).presented
          = (postRender 2 false [] postEnvAllOk rs800).rs.presented)) :=
  postRender_scale_restored 2 false [] postEnvAllOk rs800 rfl rfl

/-- C10: whenever the binding table maps a keyboard event's (code, modifier)
pair to an action whose first key is the `keyNone` sentinel — including the
unbound case — `HandleEvent` emits no key signals at all (the second key is
ignored even when set) and reports the event as key-typed but not consumed;
in particular the default bindings' PageDown entry, which sets only the
second key, emits nothing. -/
theorem handleEvent_key1_none_emits_nothing :
    (∀ (bindings : BindTable) (sym : KeyInput) (down : Bool),
        ((lookupTable bindings sym).getD KeyAction.zero).key1 = NkKey.keyNone →
        handleEvent bindings (.keyboard down sym) = ([], .inputKey, false))
    ∧ ∀ down : Bool,
        handleEvent defaultHandlerTable (.keyboard down ⟨K_PAGEDOWN, KMOD_NONE⟩)
          = ([], .inputKey, false) := by
  constructor
  · intro bindings sym down h
    simp [handleEvent, h]
  · decide

/-- Witness for `handleEvent_key1_none_emits_nothing` at the expanded default
table's PageDown entry (whose action sets only the second key). -/
theorem handleEvent_key1_none_emits_nothing_witness :
    handleEvent defaultHandlerTable (.keyboard true ⟨K_PAGEDOWN, KMOD_NONE⟩)
      = ([], .inputKey, false) :=
  handleEvent_key1_none_emits_nothing.1 defaultHandlerTable ⟨K_PAGEDOWN, KMOD_NONE⟩ true
    (by decide)

end NkSdl
